import Mathlib

/-!
Verification development for the `finance_assistant` Home Assistant custom
component.  The definitions below are shallow embeddings of the relevant
Python functions in `custom_components/finance_assistant/`:

* `api.py`          — `FinanceAssistantApiClient._request`
* `__init__.py`     — `FinanceAssistantDataUpdateCoordinator._request`,
                      `_async_update_data`, and
                      `async_handle_reconcile_stock_assets`
* `sensor.py`       — `ynab_milliunits_to_float`,
                      `FinanceAssistantSummarySensor._calculate_ynab_balances`,
                      `_calculate_scheduled_transactions`, and the `state`
                      properties of the liability and credit-card sensors.

Machine reals (Python floats) are modelled as rationals; Python string values
appearing only as inputs to `float(...)` are modelled by their parse result
(`Option ℚ`, `none` when the conversion raises `ValueError`); HTTP responses
are modelled by their status and whether their body parses as JSON.
-/

namespace FinanceAssistant

/-! ## Python numeric primitives -/

/-- Python `round(x)` (one-argument form): round half to even. -/
def pyRound (q : ℚ) : ℤ :=
  let f : ℤ := ⌊q⌋
  let frac : ℚ := q - (f : ℚ)
  if frac < 1/2 then f
  else if 1/2 < frac then f + 1
  else if f % 2 = 0 then f else f + 1

/-- Python `int(x)` on a float: truncation toward zero. -/
def pyTrunc (q : ℚ) : ℤ :=
  if 0 ≤ q then ⌊q⌋ else ⌈q⌉

/-- Python `round(x, 2)`: round to the nearest multiple of 1/100, half to even. -/
def pyRound2 (q : ℚ) : ℚ :=
  (pyRound (q * 100) : ℚ) / 100

/-! ## HTTP layer

An attempt against a URL either yields a response (with a status code and a
body that may or may not parse as JSON), raises a connection-class error
(`aiohttp.ClientConnectorError`, `asyncio.TimeoutError`, `socket.gaierror`),
or raises some other unexpected exception.  JSON payloads are abstracted to a
natural number token. -/

structure HttpResponse where
  status : ℕ
  /-- `some v` when the body parses as JSON (abstracted value `v`);
  `none` when `.json()` raises `ContentTypeError` / `JSONDecodeError`. -/
  jsonBody : Option ℕ
deriving DecidableEq, Repr

inductive HttpOutcome
  /-- The request completed with a response. -/
  | response (r : HttpResponse)
  /-- `ClientConnectorError` / `TimeoutError` / `gaierror`. -/
  | connError
  /-- Any other exception caught by the bare `except Exception` clauses. -/
  | otherError
deriving DecidableEq, Repr

/-- The value a successful `_request` returns: parsed JSON, or the empty
dict `{}` substituted for a 204 No Content response. -/
inductive ReqBody
  | json (v : ℕ)
  | emptyDict
deriving DecidableEq, Repr

/-- The kind of failure recorded in `last_error` for one attempt. -/
inductive ErrKind
  /-- 2xx (non-204) response whose body is not JSON. -/
  | nonJson
  /-- 401/403 (API client) or 401 (coordinator). -/
  | auth
  /-- 404. -/
  | notFound
  /-- Any other non-2xx status. -/
  | httpFail
  /-- Connection-class error. -/
  | connErr
  /-- Unexpected exception. -/
  | unexpected
deriving DecidableEq, Repr

/-- The exception a failed `_request` raises.  `fromPrimary` records which
attempt the exception's message describes (the Python code formats the
method name — "Supervisor" or "Direct" — into the message). -/
structure ApiErr where
  fromPrimary : Bool
  kind : ErrKind
deriving DecidableEq, Repr

/-- Client configuration shared by `FinanceAssistantApiClient` and the
coordinator: both hold a supervisor URL, a direct URL and an optional
supervisor token. -/
structure ClientConfig where
  supervisorUrl : String
  directUrl : String
  supervisorToken : Option String
deriving DecidableEq, Repr

/-- Python `endpoint.lstrip('/')`. -/
def lstripSlash (s : String) : String :=
  ⟨s.toList.dropWhile (· = '/')⟩

/-- The world: the outcome of issuing one HTTP request to a given URL. -/
def HttpWorld := String → HttpOutcome

/-- Primary URL selection of both `_request` variants: with a supervisor
token the supervisor URL is primary, otherwise the direct URL is. -/
def primaryUrl (c : ClientConfig) (endpoint : String) : String :=
  match c.supervisorToken with
  | some _ => c.supervisorUrl ++ "/" ++ lstripSlash endpoint
  | none => c.directUrl ++ "/" ++ lstripSlash endpoint

/-- Secondary URL selection: only present in the supervisor environment. -/
def secondaryUrl (c : ClientConfig) (endpoint : String) : Option String :=
  match c.supervisorToken with
  | some _ => some (c.directUrl ++ "/" ++ lstripSlash endpoint)
  | none => none

/-- Outcome of the primary attempt, shared verbatim by `api.py` lines 70-100
and `__init__.py` lines 445-485: a 2xx response returns its JSON (204
returning `{}`); a 2xx non-JSON body, an auth status, a 404, any other
status, a connection error or an unexpected exception all record a
`last_error` of the corresponding kind instead of raising. -/
def attemptResult (o : HttpOutcome) : ReqBody ⊕ ErrKind :=
  match o with
  | .response r =>
    if 200 ≤ r.status ∧ r.status < 300 then
      if r.status = 204 then .inl .emptyDict
      else
        match r.jsonBody with
        | some v => .inl (.json v)
        | none => .inr .nonJson
    else if r.status = 401 ∨ r.status = 403 then .inr .auth
    else if r.status = 404 then .inr .notFound
    else .inr .httpFail
  | .connError => .inr .connErr
  | .otherError => .inr .unexpected

/-- `FinanceAssistantApiClient._request` (`api.py` lines 31-144), returning
the result (parsed body or raised exception) together with the list of URLs
actually requested, in order. -/
def apiClientRequest (c : ClientConfig) (world : HttpWorld) (endpoint : String) :
    (Except ApiErr ReqBody) × List String :=
  let purl := primaryUrl c endpoint
  match attemptResult (world purl) with
  | .inl body => (.ok body, [purl])
  | .inr k =>
    let lastError : ApiErr := ⟨true, k⟩
    match secondaryUrl c endpoint with
    | none => (.error lastError, [purl])
    | some surl =>
      match world surl with
      | .response r =>
        if 200 ≤ r.status ∧ r.status < 300 then
          if r.status = 204 then (.ok .emptyDict, [purl, surl])
          else
            match r.jsonBody with
            | some v => (.ok (.json v), [purl, surl])
            | none =>
              -- api.py line 122: `raise last_error or ...` — last_error is set
              (.error lastError, [purl, surl])
        else
          -- api.py line 128: fallback failed, raise the original error
          (.error lastError, [purl, surl])
      | .connError => (.error lastError, [purl, surl])
      | .otherError => (.error lastError, [purl, surl])

/-- Outcome of the coordinator's primary attempt (`__init__.py` lines
445-485).  Identical control flow to `attemptResult` except that only 404
and 401 get dedicated branches (403 falls into the generic failure branch);
every branch records an `UpdateFailed` as `last_error`. -/
def coordAttemptResult (o : HttpOutcome) : ReqBody ⊕ ErrKind :=
  match o with
  | .response r =>
    if 200 ≤ r.status ∧ r.status < 300 then
      if r.status = 204 then .inl .emptyDict
      else
        match r.jsonBody with
        | some v => .inl (.json v)
        | none => .inr .nonJson
    else if r.status = 404 then .inr .notFound
    else if r.status = 401 then .inr .auth
    else .inr .httpFail
  | .connError => .inr .connErr
  | .otherError => .inr .unexpected

/-- `FinanceAssistantDataUpdateCoordinator._request` (`__init__.py` lines
414-534).  Same fallback structure as `apiClientRequest`, with one
difference: when the fallback response is 2xx but its body is not JSON, the
coordinator first clears `last_error` and then raises a NEW `UpdateFailed`
describing the secondary attempt (`__init__.py` lines 503-511), instead of
re-raising the primary attempt's error. -/
def coordinatorRequest (c : ClientConfig) (world : HttpWorld) (endpoint : String) :
    (Except ApiErr ReqBody) × List String :=
  let purl := primaryUrl c endpoint
  match coordAttemptResult (world purl) with
  | .inl body => (.ok body, [purl])
  | .inr k =>
    let lastError : ApiErr := ⟨true, k⟩
    match secondaryUrl c endpoint with
    | none => (.error lastError, [purl])
    | some surl =>
      match world surl with
      | .response r =>
        if 200 ≤ r.status ∧ r.status < 300 then
          if r.status = 204 then (.ok .emptyDict, [purl, surl])
          else
            match r.jsonBody with
            | some v => (.ok (.json v), [purl, surl])
            | none =>
              -- __init__.py line 511: raises a fresh UpdateFailed about the
              -- secondary response, `last_error` having been cleared
              (.error ⟨false, .nonJson⟩, [purl, surl])
        else
          -- __init__.py line 518: `raise last_error or ...` — last_error is set
          (.error lastError, [purl, surl])
      | .connError => (.error lastError, [purl, surl])
      | .otherError => (.error lastError, [purl, surl])

/-! ## sensor.py: milliunit conversion and summary aggregations -/

/-- `ynab_milliunits_to_float` (`sensor.py` lines 270-274).  The Python
function accepts any numeric argument (or `None`); numeric inputs are
modelled as rationals. -/
def ynab_milliunits_to_float (milliunits : Option ℚ) : ℚ :=
  match milliunits with
  | none => 0
  | some m => m / 1000

/-- Python `str.lower()` restricted to what the code compares against
(ASCII account-type names). -/
def pyLower (s : String) : String :=
  s.map Char.toLower

/-- A YNAB account as consumed by `_calculate_ynab_balances`: only the
fields the function reads.  `accountType = none` models a missing
`account_type` key (`a.get("account_type", "")` defaults to `""`);
`closed` is the truthiness of `a.get("closed")`; the balance and
allocation fields are milliunit amounts, `none` when missing or `None`. -/
structure Account where
  accountType : Option String
  closed : Bool
  balance : Option ℚ
  allocationLiquid : Option ℚ
  allocationFrozen : Option ℚ
  allocationDeepFreeze : Option ℚ
deriving DecidableEq, Repr

/-- A credit card as consumed by `_calculate_ynab_balances`. -/
structure CreditCard where
  closed : Bool
  balance : Option ℚ
deriving DecidableEq, Repr

/-- `a.get("account_type", "").lower() in ["checking", "savings", "cash"]`. -/
def isCashType (a : Account) : Bool :=
  let t := pyLower (a.accountType.getD "")
  t = "checking" ∨ t = "savings" ∨ t = "cash"

/-- `FinanceAssistantSummarySensor._calculate_ynab_balances` (`sensor.py`
lines 1265-1292) for a given sensor key.  Non-dict list entries, which the
comprehensions drop, are not modelled.  Unknown keys return 0.0. -/
def calculateYnabBalances (sensorKey : String) (accounts : List Account)
    (creditCards : List CreditCard) : ℚ :=
  if sensorKey = "ynab_cash_balance" then
    let cashAccounts := accounts.filter (fun a => isCashType a ∧ ¬ a.closed)
    pyRound2 ((cashAccounts.map (fun a => ynab_milliunits_to_float a.balance)).sum)
  else if sensorKey = "ynab_cash_liquid" then
    let cashAccounts := accounts.filter isCashType
    pyRound2 ((cashAccounts.map (fun a => ynab_milliunits_to_float a.allocationLiquid)).sum)
  else if sensorKey = "ynab_cash_frozen" then
    let cashAccounts := accounts.filter isCashType
    pyRound2 ((cashAccounts.map (fun a => ynab_milliunits_to_float a.allocationFrozen)).sum)
  else if sensorKey = "ynab_cash_deep_freeze" then
    let cashAccounts := accounts.filter isCashType
    pyRound2 ((cashAccounts.map (fun a => ynab_milliunits_to_float a.allocationDeepFreeze)).sum)
  else if sensorKey = "ynab_credit_balance" then
    let activeCards := creditCards.filter (fun c => ¬ c.closed)
    pyRound2 ((activeCards.map (fun c => ynab_milliunits_to_float c.balance)).sum)
  else 0

/-- Auxiliary recursion for `pyStrReplace`, with explicit fuel (each step
consumes at least one input character, so `s.length` fuel is exhaustive). -/
def replaceFuel (pat repl : List Char) : ℕ → List Char → List Char
  | _, [] => []
  | 0, s => s
  | fuel + 1, c :: cs =>
    if pat.isPrefixOf (c :: cs) then
      repl ++ replaceFuel pat repl fuel ((c :: cs).drop pat.length)
    else
      c :: replaceFuel pat repl fuel cs

/-- Python `s.replace(pat, repl)` for a nonempty pattern (every occurrence,
scanning left to right; the only pattern the code uses,
`f"scheduled_next_{days}_days_"`, is nonempty). -/
def pyStrReplace (s pat repl : String) : String :=
  if pat.toList = [] then s
  else ⟨replaceFuel pat.toList repl.toList s.toList.length s.toList⟩

/-- A scheduled transaction as consumed by
`_calculate_scheduled_transactions`.  Dates are modelled as day numbers
(`ℤ`); `dateNext = none` models a missing or unparseable `date_next` string
(`safe_parse_ynab_date` returning `None`); `amount` is in milliunits,
`none` when missing. -/
structure ScheduledTxn where
  dateNext : Option ℤ
  amount : Option ℚ
deriving DecidableEq, Repr

/-- The body of the `for st in scheduled_transactions` loop (`sensor.py`
lines 1327-1337), accumulating the `amounts` list. -/
def scheduledStep (relevantKeyPart : String) (today endDate : ℤ)
    (acc : List ℚ) (st : ScheduledTxn) : List ℚ :=
  match st.dateNext with
  | none => acc
  | some nextDate =>
    if today ≤ nextDate ∧ nextDate < endDate then
      let amount := ynab_milliunits_to_float st.amount
      if relevantKeyPart = "inflow" ∧ 0 < amount then acc ++ [amount]
      else if relevantKeyPart = "outflow" ∧ amount < 0 then acc ++ [amount]
      else if relevantKeyPart = "net" then acc ++ [amount]
      else acc
    else acc

/-- `FinanceAssistantSummarySensor._calculate_scheduled_transactions`
(`sensor.py` lines 1317-1346).  The sensor key has the prefix
`scheduled_next_{days}_days_` stripped to select the inflow / outflow / net
variant; the window is `today <= next_date < today + days`. -/
def calculateScheduledTransactions (sensorKey : String) (days : ℕ) (today : ℤ)
    (scheduledTransactions : List ScheduledTxn) : ℚ :=
  let endDate := today + (days : ℤ)
  let relevantKeyPart :=
    pyStrReplace sensorKey ("scheduled_next_" ++ toString days ++ "_days_") ""
  let amounts := scheduledTransactions.foldl (scheduledStep relevantKeyPart today endDate) []
  let total := amounts.sum
  if relevantKeyPart = "outflow" then pyRound2 |total| else pyRound2 total

/-! ## sensor.py: liability / credit-card display states -/

/-- The stored `_attr_native_value` of a liability or credit-card sensor at
the moment the `state` property reads it: either a numeric value (the
balance converted from milliunits, as a float) or something `float()`
rejects (e.g. the initial `STATE_UNAVAILABLE` string). -/
inductive NativeVal
  | num (q : ℚ)
  | nonNumeric
deriving DecidableEq, Repr

/-- Two decimal digits (most significant first) of `n % 100`. -/
def twoDigits (n : ℕ) : String :=
  ⟨[Nat.digitChar (n / 10 % 10), Nat.digitChar (n % 10)]⟩

/-- Python `f"{x:.2f}"` for a float `x`: fixed-point rendering with exactly
two digits after the decimal point, rounding half to even. -/
def pyFormatF2 (x : ℚ) : String :=
  let cents : ℤ := pyRound (|x| * 100)
  let core := toString (cents / 100) ++ "." ++ twoDigits (cents % 100).toNat
  if x < 0 then "-" ++ core else core

/-- `FinanceAssistantLiabilitySensor.state` (`sensor.py` lines 803-811):
`f"{abs(float(v)):.2f}"`, with `"0.00"` when `float(v)` raises. -/
def liabilityState (v : NativeVal) : String :=
  match v with
  | .num q => pyFormatF2 |q|
  | .nonNumeric => "0.00"

/-- `FinanceAssistantCreditCardSensor.state` (`sensor.py` lines 962-970):
textually identical to the liability sensor's `state` property. -/
def creditCardState (v : NativeVal) : String :=
  match v with
  | .num q => pyFormatF2 |q|
  | .nonNumeric => "0.00"

/-! ## __init__.py: the reconcile_stock_assets service

`async_handle_reconcile_stock_assets` filters the addon data down to
eligible stock assets and, for each one, computes an adjustment from the
linked Home Assistant entity's price and posts a
`create_adjustment_transaction` request when the adjustment is nonzero.

Python values that only ever flow into `float(...)` (the `shares` string,
the entity state, the asset's `value` field) are modelled by their parse
result: `none` when the conversion raises, `some q` when it yields `q`.
Falsy-but-numeric corner cases collapse: a `shares` value that is falsy
(`None`, `""`, `0`, `0.0`) is skipped by the truthiness check at line 113,
and a parseable non-positive value is skipped at lines 119-127, so an asset
survives both checks exactly when its shares parse to a positive number. -/

/-- One entry of the addon's `assets` list, restricted to the fields the
service reads.  `deleted` is the truthiness of `asset.get("deleted")`;
`id = none` covers a missing or falsy id (line 86 skips both).
`value = none` models a missing (or `None`) `value` key; `value = some v`
models a present one, with `v = none` when `float(value)` raises.
`balance` models `asset.get("balance", 0)`: the default 0 applies when the
key is missing, and `balance = some none` models a present non-`int` value,
which fails the `isinstance(..., int)` check at line 113. -/
structure AddonAsset where
  deleted : Bool
  id : Option String
  value : Option (Option ℚ)
  balance : Option (Option ℤ)
deriving DecidableEq, Repr

/-- One entry of the `manual_assets` mapping.  `shares = some q` means the
stored shares value is truthy and `float(shares)` yields `q`; `none` covers
a missing, falsy, or unparseable value (all of which skip the asset). -/
structure ManualAssetDetails where
  typeId : Option String
  entityId : Option String
  shares : Option ℚ
deriving DecidableEq, Repr

/-- One entry of the addon's `asset_types` list. -/
structure AssetType where
  id : Option String
  name : Option String
deriving DecidableEq, Repr

/-- The slice of the coordinator data the service reads. -/
structure AllData where
  assets : List AddonAsset
  manualAssets : List (String × ManualAssetDetails)
  assetTypes : List AssetType
deriving DecidableEq, Repr

/-- Lines 62-64: `next((t.get("id") for t in asset_types if t.get("name") ==
"Stocks"), None)` — the `id` of the first asset type named "Stocks". -/
def stockTypeId (assetTypes : List AssetType) : Option String :=
  (assetTypes.find? (fun t => t.name = some "Stocks")).bind (·.id)

/-- Lines 100-110: the asset's current YNAB balance in milliunits.
`value`, when present, is in currency units and is converted with
`int(float(value) * 1000)`, defaulting to 0 when non-numeric; otherwise
`balance` is used (default 0 when missing).  Returns `none` exactly when
the resulting value is not an `int` (a present non-`int` `balance`), which
the `isinstance` check at line 113 then rejects. -/
def assetBalanceMilliunits (a : AddonAsset) : Option ℤ :=
  match a.value with
  | some (some v) => some (pyTrunc (v * 1000))
  | some none => some 0
  | none =>
    match a.balance with
    | none => some 0
    | some b => b

/-- An entry of `assets_to_reconcile` (lines 129-137), without the
log-only `name` field. -/
structure ReconcileItem where
  ynabAccountId : String
  entityId : String
  shares : ℚ
  ynabBalanceMilliunits : ℤ
deriving DecidableEq, Repr

/-- Lines 80-137: the eligibility filter producing `assets_to_reconcile`.
An asset is kept when it is not deleted, has a truthy id, has manual
details of the "Stocks" type with a truthy entity id and positive numeric
shares, and its YNAB balance is a valid integer. -/
def assetsToReconcile (data : AllData) : List ReconcileItem :=
  match stockTypeId data.assetTypes with
  | none => []
  | some stockId =>
    if stockId = "" then []
    else
      data.assets.foldl
        (fun acc asset =>
          if asset.deleted then acc
          else
            match asset.id with
            | none => acc
            | some ynabAssetId =>
              if ynabAssetId = "" then acc
              else
                match List.lookup ynabAssetId data.manualAssets with
                | none => acc
                | some details =>
                  if details.typeId ≠ some stockId then acc
                  else
                    match details.entityId, details.shares,
                        assetBalanceMilliunits asset with
                    | some entityId, some shares, some bal =>
                      if entityId = "" then acc
                      else if shares ≤ 0 then acc
                      else acc ++ [⟨ynabAssetId, entityId, shares, bal⟩]
                    | _, _, _ => acc) []

/-- The Home Assistant state machine as the service sees it:
`none` when `hass.states.get(entity_id)` returns no entity, `some none`
when the entity's state string is not a valid float, `some (some p)` when
it parses to the price `p`. -/
def HassStates := String → Option (Option ℚ)

/-- A `create_adjustment_transaction` request posted to the addon
(lines 191-199): its JSON payload carries the account id and the amount. -/
structure AdjustmentRequest where
  accountId : String
  amount : ℤ
deriving DecidableEq, Repr

/-- The addon's answer to a posted adjustment: `true` when the response is
a dict with a truthy `transaction_id` (line 202), `false` when the addon
reports failure or the call raises. -/
def AddonApi := AdjustmentRequest → Bool

/-- Lines 155-223: one iteration of the reconcile loop.  Returns the list
of requests posted for this asset (empty or a singleton) and whether the
asset counts as a successful update. -/
def reconcileAsset (hassStates : HassStates) (api : AddonApi)
    (item : ReconcileItem) : List AdjustmentRequest × Bool :=
  match hassStates item.entityId with
  | none => ([], false)
  | some none => ([], false)
  | some (some currentPrice) =>
    let calculatedValueMilliunits : ℤ :=
      pyRound (currentPrice * item.shares * 1000)
    let adjustmentMilliunits : ℤ :=
      calculatedValueMilliunits - item.ynabBalanceMilliunits
    if adjustmentMilliunits ≠ 0 then
      ([⟨item.ynabAccountId, adjustmentMilliunits⟩],
       api ⟨item.ynabAccountId, adjustmentMilliunits⟩)
    else
      ([], true)

/-- The adjustment the loop computes for an eligible asset at a given
price: `int(round(current_price * shares * 1000))` minus the stored YNAB
balance in milliunits (lines 179-180; one-argument `round` already returns
an `int`, so the outer `int(...)` is the identity). -/
def adjustmentFor (item : ReconcileItem) (price : ℚ) : ℤ :=
  pyRound (price * item.shares * 1000) - item.ynabBalanceMilliunits

/-- One `for asset in assets_to_reconcile` iteration's effect on the
accumulated (posted requests, `successful_updates`, `failed_updates`). -/
def reconcileFoldStep (hassStates : HassStates) (api : AddonApi)
    (acc : List AdjustmentRequest × ℕ × ℕ) (item : ReconcileItem) :
    List AdjustmentRequest × ℕ × ℕ :=
  let step := reconcileAsset hassStates api item
  (acc.1 ++ step.1,
   if step.2 then (acc.2.1 + 1, acc.2.2) else (acc.2.1, acc.2.2 + 1))

/-- The whole service loop over `assets_to_reconcile`: the posted requests
in order, and the final success / failure counters. -/
def reconcileService (data : AllData) (hassStates : HassStates)
    (api : AddonApi) : List AdjustmentRequest × ℕ × ℕ :=
  (assetsToReconcile data).foldl (reconcileFoldStep hassStates api) ([], 0, 0)

/-! ## __init__.py: the periodic poll-and-merge update

`_async_update_data` fetches `/all_data` and `/config` concurrently
(`asyncio.gather` with `return_exceptions=True`), merges the main payload
into a fresh dict, and stores the config payload under the `config` key,
falling back to the previous config (or `{}`) when the config fetch fails.
The two fetch outcomes are independent inputs of the model. -/

/-- A JSON-ish Python value: scalars are abstracted to naturals, dicts are
association lists in insertion order. -/
inductive PVal
  | scalar (n : ℕ)
  | dict (entries : List (String × PVal))

/-- A Python dict, keyed by strings, in insertion order. -/
def PDict := List (String × PVal)

/-- `d.get(k)` / `d[k]`: the value of the first entry with key `k`
(a Python dict holds each key at most once). -/
def pdictGet (d : PDict) (k : String) : Option PVal :=
  match d with
  | [] => none
  | (k₂, v) :: rest => if k₂ = k then some v else pdictGet rest k

/-- `d[k] = v`: replace the value at `k` in place, or append a new entry. -/
def pdictSet (d : PDict) (k : String) (v : PVal) : PDict :=
  match d with
  | [] => [(k, v)]
  | (k₂, v₂) :: rest =>
    if k₂ = k then (k₂, v) :: rest else (k₂, v₂) :: pdictSet rest k v

/-- `d.update(e)`: set each of `e`'s entries in order. -/
def pdictUpdate (d : PDict) (e : PDict) : PDict :=
  e.foldl (fun acc kv => pdictSet acc kv.1 kv.2) d

/-- The keys of a dict. -/
def pdictKeys (d : PDict) : List String :=
  d.map Prod.fst

/-- The outcome of one gathered fetch task as `_async_update_data` sees it:
the task raised (an `Exception` instance in the gather result), or it
returned a non-dict value, or it returned a dict. -/
inductive FetchResult
  | exc
  | nonDict
  | dict (d : PDict)

/-- The error cases in which the update raises `UpdateFailed`
(lines 572-579). -/
inductive UpdateFailedReason
  /-- Line 576: the `/all_data` task raised. -/
  | mainFetchRaised
  /-- Line 579: `/all_data` returned a non-dict. -/
  | invalidMainFormat
deriving DecidableEq, Repr

/-- `FinanceAssistantDataUpdateCoordinator._async_update_data`
(`__init__.py` lines 556-615) as a function of the previous coordinator
data (`self.data`) and the two fetch outcomes.  A failed or non-dict main
fetch raises `UpdateFailed`; a failed or non-dict config fetch falls back
to `self.data.get('config', {}) if self.data else {}`. -/
def asyncUpdateData (prevData : Option PDict) (mainData configData : FetchResult) :
    Except UpdateFailedReason PDict :=
  match mainData with
  | .exc => .error .mainFetchRaised
  | .nonDict => .error .invalidMainFormat
  | .dict m =>
    let combinedData := pdictUpdate [] m
    let configVal : PVal :=
      match configData with
      | .dict c => .dict c
      | _ =>
        match prevData with
        | none => .dict []
        | some prev => (pdictGet prev "config").getD (.dict [])
    .ok (pdictSet combinedData "config" configVal)

/-! ## Spec-side definitions

These definitions follow the specification's and the claims' wording; the
theorems below compare the source embeddings against them. -/

/-- The claim's notion of the primary attempt failing: a non-2xx status, a
non-JSON body (outside the 204 No Content shortcut, which never reads the
body), or a connection-class / unexpected error. -/
def primaryAttemptFails (o : HttpOutcome) : Bool :=
  match o with
  | .response r =>
    ¬ (200 ≤ r.status ∧ r.status < 300) ∨ (r.status ≠ 204 ∧ r.jsonBody = none)
  | .connError => true
  | .otherError => true

/-- The routing the (amended) claim describes: with a supervisor token the
supervisor-proxied URL is attempted first and the direct URL is attempted
exactly when that primary attempt fails; without a token only the direct
URL is attempted. -/
def claimedRoutingTrace (c : ClientConfig) (w : HttpWorld) (ep : String) :
    List String :=
  match c.supervisorToken with
  | none => [c.directUrl ++ "/" ++ lstripSlash ep]
  | some _ =>
    let purl := c.supervisorUrl ++ "/" ++ lstripSlash ep
    if primaryAttemptFails (w purl) then
      [purl, c.directUrl ++ "/" ++ lstripSlash ep]
    else [purl]

/-- Whether the fallback attempt (when one exists) yields a 2xx non-204
response whose body is not JSON — the one case in which the coordinator's
`_request` raises a fresh error instead of the primary attempt's. -/
def fallbackNonJson (c : ClientConfig) (w : HttpWorld) (ep : String) : Bool :=
  match secondaryUrl c ep with
  | none => false
  | some surl =>
    match w surl with
    | .response r =>
      200 ≤ r.status ∧ r.status < 300 ∧ r.status ≠ 204 ∧ r.jsonBody = none
    | .connError => false
    | .otherError => false

/-- The claim's scheduled-transaction window: the transaction has a
parseable next-occurrence date `d` with `today ≤ d < today + days`. -/
def inWindowB (today : ℤ) (days : ℕ) (st : ScheduledTxn) : Bool :=
  match st.dateNext with
  | none => false
  | some d => today ≤ d ∧ d < today + (days : ℤ)

/-- A scheduled transaction's amount converted from milliunits. -/
def schedAmount (st : ScheduledTxn) : ℚ :=
  ynab_milliunits_to_float st.amount

/-- Which transactions one loop pass appends to `amounts`: those in the
window that the variant keeps. -/
def schedKeep (relevantKeyPart : String) (today endDate : ℤ)
    (st : ScheduledTxn) : Bool :=
  match st.dateNext with
  | none => false
  | some nextDate =>
    if today ≤ nextDate ∧ nextDate < endDate then
      if relevantKeyPart = "inflow" ∧ 0 < schedAmount st then true
      else if relevantKeyPart = "outflow" ∧ schedAmount st < 0 then true
      else if relevantKeyPart = "net" then true
      else false
    else false

/-- The config the update falls back to when the `/config` fetch fails:
`self.data.get('config', {}) if self.data else {}`. -/
def lastKnownConfig (prevData : Option PDict) : PVal :=
  match prevData with
  | none => .dict []
  | some prev => (pdictGet prev "config").getD (.dict [])

/-! ## Concrete fixtures for counterexamples and witnesses -/

/-- A development-environment client: no supervisor token. -/
def devConfig : ClientConfig :=
  ⟨"http://supervisor-proxy", "http://localhost:8000", none⟩

/-- A supervisor-environment client. -/
def supConfig : ClientConfig :=
  ⟨"http://sup", "http://direct", some "tok"⟩

/-- A world where every request raises a connection error. -/
def allConnError : HttpWorld := fun _ => .connError

/-- A world where the supervisor endpoint answers 500 and the direct
endpoint answers 200 with a non-JSON body. -/
def halfBrokenWorld : HttpWorld := fun url =>
  if url = "http://sup/all_data" then .response ⟨500, none⟩
  else .response ⟨200, none⟩

/-- A stock asset with no addon `value` and a YNAB balance of 5000
milliunits. -/
def cexAsset : AddonAsset := ⟨false, some "acct1", none, some (some 5000)⟩

/-- Manual details for `cexAsset`: a stock linked to an entity, one share. -/
def cexDetails : ManualAssetDetails := ⟨some "stock-type", some "sensor.price", some 1⟩

def cexType : AssetType := ⟨some "stock-type", some "Stocks"⟩

def cexData : AllData := ⟨[cexAsset], [("acct1", cexDetails)], [cexType]⟩

/-- The eligible item `cexData` produces. -/
def cexItem : ReconcileItem := ⟨"acct1", "sensor.price", 1, 5000⟩

/-- Every entity reports the price 5, so `cexItem`'s calculated value is
5 * 1 * 1000 = 5000 milliunits — exactly its ledger balance. -/
def cexHass : HassStates := fun _ => some (some 5)

def cexApi : AddonApi := fun _ => true

/-- Like `cexData` but with a ledger balance of 4000 milliunits, so the
adjustment at price 5 is 1000. -/
def wAsset : AddonAsset := ⟨false, some "acct1", none, some (some 4000)⟩

def wData : AllData := ⟨[wAsset], [("acct1", cexDetails)], [cexType]⟩

def wItem : ReconcileItem := ⟨"acct1", "sensor.price", 1, 4000⟩

/-- An item whose entity reports price 0 against a zero balance. -/
def czItem : ReconcileItem := ⟨"acct1", "sensor.price", 1, 0⟩

def czHass : HassStates := fun _ => some (some 0)

/-! ## Helper lemmas: HTTP fallback routing -/

theorem primaryAttemptFails_eq (o : HttpOutcome) :
    primaryAttemptFails o = (attemptResult o).isRight := by
  cases o with
  | response r =>
    unfold attemptResult primaryAttemptFails
    by_cases h2 : 200 ≤ r.status ∧ r.status < 300
    · by_cases h204 : r.status = 204
      · simp [h2, h204]
      · cases hj : r.jsonBody <;> simp [h2, h204, hj]
    · by_cases ha : r.status = 401 ∨ r.status = 403 <;>
        by_cases h404 : r.status = 404 <;> simp [h2, ha, h404]
  | connError => rfl
  | otherError => rfl

theorem coordAttemptResult_isRight (o : HttpOutcome) :
    (coordAttemptResult o).isRight = (attemptResult o).isRight := by
  cases o with
  | response r =>
    unfold attemptResult coordAttemptResult
    by_cases h2 : 200 ≤ r.status ∧ r.status < 300
    · by_cases h204 : r.status = 204
      · simp [h2, h204]
      · cases hj : r.jsonBody <;> simp [h2, h204, hj]
    · by_cases ha : r.status = 401 ∨ r.status = 403 <;>
        by_cases h401 : r.status = 401 <;>
        by_cases h404 : r.status = 404 <;>
        simp [h2, ha, h401, h404] <;> split <;> rfl
  | connError => rfl
  | otherError => rfl

theorem apiClientRequest_trace (c : ClientConfig) (w : HttpWorld) (ep : String) :
    (apiClientRequest c w ep).2 = claimedRoutingTrace c w ep := by
  unfold apiClientRequest claimedRoutingTrace primaryUrl secondaryUrl
  cases htok : c.supervisorToken with
  | none =>
    cases h : attemptResult (w (c.directUrl ++ "/" ++ lstripSlash ep)) <;> simp [h]
  | some tok =>
    have hfail := primaryAttemptFails_eq (w (c.supervisorUrl ++ "/" ++ lstripSlash ep))
    cases h : attemptResult (w (c.supervisorUrl ++ "/" ++ lstripSlash ep)) with
    | inl b => rw [h] at hfail; simp [h, hfail]
    | inr k =>
      rw [h] at hfail
      simp only [Sum.isRight] at hfail
      cases hw : w (c.directUrl ++ "/" ++ lstripSlash ep) with
      | response r =>
        by_cases h2 : 200 ≤ r.status ∧ r.status < 300
        · by_cases h204 : r.status = 204
          · simp [h, hw, hfail, h2, h204]
          · cases hj : r.jsonBody <;> simp [h, hw, hfail, h2, h204, hj]
        · simp [h, hw, hfail, h2]
      | connError => simp [h, hw, hfail]
      | otherError => simp [h, hw, hfail]

theorem coordinatorRequest_trace (c : ClientConfig) (w : HttpWorld) (ep : String) :
    (coordinatorRequest c w ep).2 = claimedRoutingTrace c w ep := by
  unfold coordinatorRequest claimedRoutingTrace primaryUrl secondaryUrl
  cases htok : c.supervisorToken with
  | none =>
    cases h : coordAttemptResult (w (c.directUrl ++ "/" ++ lstripSlash ep)) <;> simp [h]
  | some tok =>
    have hfail := primaryAttemptFails_eq (w (c.supervisorUrl ++ "/" ++ lstripSlash ep))
    rw [← coordAttemptResult_isRight] at hfail
    cases h : coordAttemptResult (w (c.supervisorUrl ++ "/" ++ lstripSlash ep)) with
    | inl b => rw [h] at hfail; simp [h, hfail]
    | inr k =>
      rw [h] at hfail
      simp only [Sum.isRight] at hfail
      cases hw : w (c.directUrl ++ "/" ++ lstripSlash ep) with
      | response r =>
        by_cases h2 : 200 ≤ r.status ∧ r.status < 300
        · by_cases h204 : r.status = 204
          · simp [h, hw, hfail, h2, h204]
          · cases hj : r.jsonBody <;> simp [h, hw, hfail, h2, h204, hj]
        · simp [h, hw, hfail, h2]
      | connError => simp [h, hw, hfail]
      | otherError => simp [h, hw, hfail]

theorem claimedRoutingTrace_length (c : ClientConfig) (w : HttpWorld) (ep : String) :
    (claimedRoutingTrace c w ep).length ≤ 2 := by
  unfold claimedRoutingTrace
  cases htok : c.supervisorToken with
  | none => simp
  | some tok =>
    by_cases hf : primaryAttemptFails (w (c.supervisorUrl ++ "/" ++ lstripSlash ep)) = true <;>
      simp [hf]

theorem apiClientRequest_error (c : ClientConfig) (w : HttpWorld) (ep : String)
    (e : ApiErr) (h : (apiClientRequest c w ep).1 = .error e) :
    attemptResult (w (primaryUrl c ep)) = .inr e.kind ∧ e.fromPrimary = true := by
  unfold apiClientRequest at h
  cases ha : attemptResult (w (primaryUrl c ep)) with
  | inl b => simp only [ha] at h; simp at h
  | inr k =>
    simp only [ha] at h
    cases hs : secondaryUrl c ep with
    | none =>
      simp only [hs] at h
      simp at h
      subst h
      simp [ha]
    | some surl =>
      simp only [hs] at h
      cases hw : w surl with
      | response r =>
        simp only [hw] at h
        by_cases h2 : 200 ≤ r.status ∧ r.status < 300
        · by_cases h204 : r.status = 204
          · simp [h2, h204] at h
          · cases hj : r.jsonBody with
            | none =>
              simp [h2, h204, hj] at h
              subst h
              simp [ha]
            | some v => simp [h2, h204, hj] at h
        · simp [h2] at h
          subst h
          simp [ha]
      | connError =>
        simp only [hw] at h; simp at h; subst h; simp [ha]
      | otherError =>
        simp only [hw] at h; simp at h; subst h; simp [ha]

theorem coordinatorRequest_error (c : ClientConfig) (w : HttpWorld) (ep : String)
    (e : ApiErr) (h : (coordinatorRequest c w ep).1 = .error e) :
    (fallbackNonJson c w ep = true → e = ⟨false, .nonJson⟩)
  ∧ (fallbackNonJson c w ep = false →
      coordAttemptResult (w (primaryUrl c ep)) = .inr e.kind ∧ e.fromPrimary = true) := by
  unfold coordinatorRequest at h
  cases ha : coordAttemptResult (w (primaryUrl c ep)) with
  | inl b => simp only [ha] at h; simp at h
  | inr k =>
    simp only [ha] at h
    cases hs : secondaryUrl c ep with
    | none =>
      simp only [hs] at h
      simp at h
      subst h
      have hf : fallbackNonJson c w ep = false := by simp [fallbackNonJson, hs]
      simp [hf, ha]
    | some surl =>
      simp only [hs] at h
      cases hw : w surl with
      | response r =>
        simp only [hw] at h
        by_cases h2 : 200 ≤ r.status ∧ r.status < 300
        · by_cases h204 : r.status = 204
          · simp [h2, h204] at h
          · cases hj : r.jsonBody with
            | none =>
              simp [h2, h204, hj] at h
              subst h
              have hf : fallbackNonJson c w ep = true := by
                simp only [fallbackNonJson, hs, hw]
                exact decide_eq_true ⟨h2.1, h2.2, h204, hj⟩
              simp [hf]
            | some v => simp [h2, h204, hj] at h
        · simp [h2] at h
          subst h
          have hf : fallbackNonJson c w ep = false := by
            simp only [fallbackNonJson, hs, hw]
            exact decide_eq_false (fun hcon => h2 ⟨hcon.1, hcon.2.1⟩)
          simp [hf, ha]
      | connError =>
        simp only [hw] at h; simp at h; subst h
        have hf : fallbackNonJson c w ep = false := by
          simp [fallbackNonJson, hs, hw]
        simp [hf, ha]
      | otherError =>
        simp only [hw] at h; simp at h; subst h
        have hf : fallbackNonJson c w ep = false := by
          simp [fallbackNonJson, hs, hw]
        simp [hf, ha]

/-! ## Claims C1 and C2: fallback routing and give-up behaviour -/

/-- C1 (amended): when a supervisor token is configured, both `_request`
variants try the supervisor-proxied URL first and try the direct URL as
fallback if and only if the primary attempt fails (non-2xx status,
non-JSON body, or connection-class/unexpected error); without a token only
the direct URL is attempted.  The attempted-URL trace of both variants
equals the claimed routing. -/
theorem request_fallback_routing (c : ClientConfig) (w : HttpWorld) (ep : String) :
    (apiClientRequest c w ep).2 = claimedRoutingTrace c w ep
  ∧ (coordinatorRequest c w ep).2 = claimedRoutingTrace c w ep :=
  ⟨apiClientRequest_trace c w ep, coordinatorRequest_trace c w ep⟩

/-- C1 counterexample: in a development environment (no supervisor token)
the supervisor-proxied URL is never attempted — the one and only attempt
goes to the direct URL — so "for every API request, the HTTP client tries
the supervisor-proxied URL first" is false as stated. -/
theorem request_fallback_routing_counterexample :
    (apiClientRequest devConfig allConnError "ping").2 = ["http://localhost:8000/ping"]
  ∧ "http://supervisor-proxy/ping" ∉ (apiClientRequest devConfig allConnError "ping").2 := by
  constructor
  · rfl
  · intro hmem
    simp only [show (apiClientRequest devConfig allConnError "ping").2
        = ["http://localhost:8000/ping"] from rfl] at hmem
    simp at hmem

/-- C2 (amended): a request makes at most two HTTP attempts and, when it
raises, the exception is the error recorded from the primary attempt —
except that the coordinator's variant raises a fresh error describing the
fallback response when the fallback answers 2xx with a non-JSON body. -/
theorem request_giveup (c : ClientConfig) (w : HttpWorld) (ep : String) :
    (apiClientRequest c w ep).2.length ≤ 2
  ∧ (coordinatorRequest c w ep).2.length ≤ 2
  ∧ (∀ e, (apiClientRequest c w ep).1 = .error e →
      attemptResult (w (primaryUrl c ep)) = .inr e.kind ∧ e.fromPrimary = true)
  ∧ (∀ e, (coordinatorRequest c w ep).1 = .error e →
      (fallbackNonJson c w ep = true → e = ⟨false, .nonJson⟩)
      ∧ (fallbackNonJson c w ep = false →
          coordAttemptResult (w (primaryUrl c ep)) = .inr e.kind ∧ e.fromPrimary = true)) := by
  refine ⟨?_, ?_, ?_, ?_⟩
  · rw [apiClientRequest_trace]; exact claimedRoutingTrace_length c w ep
  · rw [coordinatorRequest_trace]; exact claimedRoutingTrace_length c w ep
  · exact fun e h => apiClientRequest_error c w ep e h
  · exact fun e h => coordinatorRequest_error c w ep e h

/-- C2 witness: with every attempt failing with a connection error, the API
client makes two attempts and raises the primary attempt's recorded
connection error. -/
theorem request_giveup_witness :
    (apiClientRequest supConfig allConnError "ping").1 = .error ⟨true, .connErr⟩
  ∧ attemptResult (allConnError (primaryUrl supConfig "ping")) =
      .inr (ApiErr.mk true ErrKind.connErr).kind
  ∧ (ApiErr.mk true ErrKind.connErr).fromPrimary = true :=
  ⟨rfl,
   ((request_giveup supConfig allConnError "ping").2.2.1 ⟨true, .connErr⟩ rfl).1,
   ((request_giveup supConfig allConnError "ping").2.2.1 ⟨true, .connErr⟩ rfl).2⟩

/-- C2 counterexample: when the supervisor endpoint answers 500 and the
direct endpoint answers 200 with a non-JSON body, the coordinator's
`_request` raises a fresh non-JSON error attributed to the fallback
attempt, not the 500 error recorded from the primary attempt. -/
theorem request_giveup_counterexample :
    (coordinatorRequest supConfig halfBrokenWorld "all_data").1 =
      .error ⟨false, .nonJson⟩
  ∧ coordAttemptResult (halfBrokenWorld "http://sup/all_data") = .inr .httpFail
  ∧ (⟨false, ErrKind.nonJson⟩ : ApiErr) ≠ ⟨true, ErrKind.httpFail⟩ :=
  ⟨rfl, rfl, by decide⟩

/-! ## Claim C7: milliunit conversion -/

/-- C7: milliunits are 1/1000 of a currency unit — for every numeric input
`m`, `ynab_milliunits_to_float m = m / 1000`, and `None` maps to 0.0. -/
theorem milliunits_conversion :
    (∀ m : ℚ, ynab_milliunits_to_float (some m) = m / 1000)
  ∧ ynab_milliunits_to_float none = 0 :=
  ⟨fun _ => rfl, rfl⟩

/-! ## Claim C10: liability / credit-card display states -/

/-- C10: the liability and credit-card sensors display the absolute value
of the stored native value with exactly two decimal places (negative
ledger balances show as positive debt amounts), and the string "0.00" when
the stored value is not numeric. -/
theorem debt_sensor_display (q : ℚ) :
    liabilityState (.num q) = pyFormatF2 |q|
  ∧ creditCardState (.num q) = pyFormatF2 |q|
  ∧ liabilityState (.num (-q)) = liabilityState (.num q)
  ∧ creditCardState (.num (-q)) = creditCardState (.num q)
  ∧ liabilityState (.num q) =
      toString (pyRound (|q| * 100) / 100) ++ "." ++
        twoDigits (pyRound (|q| * 100) % 100).toNat
  ∧ (twoDigits (pyRound (|q| * 100) % 100).toNat).length = 2
  ∧ liabilityState NativeVal.nonNumeric = "0.00"
  ∧ creditCardState NativeVal.nonNumeric = "0.00" := by
  refine ⟨rfl, rfl, ?_, ?_, ?_, rfl, rfl, rfl⟩
  · simp [liabilityState, abs_neg]
  · simp [creditCardState, abs_neg]
  · show pyFormatF2 |q| = _
    simp only [pyFormatF2]
    rw [abs_abs, if_neg (not_lt.mpr (abs_nonneg q))]

/-! ## Claim C4: cash / credit balance aggregation -/

/-- A cash account per the claim: `account_type` is case-insensitively
checking, savings or cash, and the account is not closed. -/
def claimedCashAccount (a : Account) : Bool :=
  (pyLower (a.accountType.getD "") = "checking"
    ∨ pyLower (a.accountType.getD "") = "savings"
    ∨ pyLower (a.accountType.getD "") = "cash") ∧ a.closed = false

/-- A credit card the claim counts: not closed. -/
def claimedActiveCard (c : CreditCard) : Bool :=
  c.closed = false

theorem cashPred_eq (a : Account) :
    (decide (isCashType a ∧ ¬ a.closed)) = claimedCashAccount a := by
  unfold claimedCashAccount
  apply decide_eq_decide.mpr
  simp [isCashType, Bool.not_eq_true]

theorem cardPred_eq (c : CreditCard) :
    (decide ¬ c.closed) = claimedActiveCard c := by
  unfold claimedActiveCard
  apply decide_eq_decide.mpr
  simp

/-- C4: the `ynab_cash_balance` sensor sums the milliunit balances of every
non-closed checking/savings/cash account (case-insensitive) converted to
currency units and rounds the sum to 2 decimal places; `ynab_credit_balance`
does the same over all non-closed credit cards. -/
theorem summary_balance_sensors (accounts : List Account)
    (creditCards : List CreditCard) :
    calculateYnabBalances "ynab_cash_balance" accounts creditCards =
      pyRound2 (((accounts.filter claimedCashAccount).map
        (fun a => a.balance.getD 0 / 1000)).sum)
  ∧ calculateYnabBalances "ynab_credit_balance" accounts creditCards =
      pyRound2 (((creditCards.filter claimedActiveCard).map
        (fun c => c.balance.getD 0 / 1000)).sum) := by
  constructor
  · simp only [calculateYnabBalances, if_true]
    rw [funext cashPred_eq]
    rw [show (fun a : Account => ynab_milliunits_to_float a.balance)
        = fun a : Account => a.balance.getD 0 / 1000 from
      funext fun a => by cases a.balance <;> simp [ynab_milliunits_to_float]]
  · simp only [calculateYnabBalances, if_true]
    rw [funext cardPred_eq]
    rw [show (fun c : CreditCard => ynab_milliunits_to_float c.balance)
        = fun c : CreditCard => c.balance.getD 0 / 1000 from
      funext fun c => by cases c.balance <;> simp [ynab_milliunits_to_float]]
    rw [if_neg (by decide), if_neg (by decide), if_neg (by decide),
        if_neg (by decide)]

/-! ## Claim C5: scheduled-transaction windows -/

/-- Inflow variant of the claim: in the window with a positive amount. -/
def claimedInflowKeep (today : ℤ) (days : ℕ) (st : ScheduledTxn) : Bool :=
  inWindowB today days st ∧ 0 < schedAmount st

/-- Outflow variant of the claim: in the window with a negative amount. -/
def claimedOutflowKeep (today : ℤ) (days : ℕ) (st : ScheduledTxn) : Bool :=
  inWindowB today days st ∧ schedAmount st < 0

theorem scheduledStep_eq (rk : String) (today endDate : ℤ) (acc : List ℚ)
    (st : ScheduledTxn) :
    scheduledStep rk today endDate acc st =
      acc ++ (if schedKeep rk today endDate st then [schedAmount st] else []) := by
  unfold scheduledStep schedKeep schedAmount
  cases st.dateNext with
  | none => simp
  | some d =>
    by_cases hw : today ≤ d ∧ d < endDate
    · simp only [hw, if_true, decide_true_eq_true, decide_eq_true_eq, if_pos]
      split_ifs <;> simp_all
    · simp [hw]

theorem schedFold_eq (rk : String) (today endDate : ℤ) (sts : List ScheduledTxn)
    (acc : List ℚ) :
    sts.foldl (scheduledStep rk today endDate) acc =
      acc ++ (sts.filter (schedKeep rk today endDate)).map schedAmount := by
  induction sts generalizing acc with
  | nil => simp
  | cons st rest ih =>
    rw [List.foldl_cons, ih, scheduledStep_eq]
    by_cases h : schedKeep rk today endDate st = true
    · simp [h, List.append_assoc]
    · simp [h]

theorem schedKeep_inflow (today : ℤ) (days : ℕ) (st : ScheduledTxn) :
    schedKeep "inflow" today (today + (days : ℤ)) st =
      claimedInflowKeep today days st := by
  unfold schedKeep claimedInflowKeep inWindowB
  cases st.dateNext with
  | none => simp
  | some d =>
    by_cases hw : today ≤ d ∧ d < today + (days : ℤ)
    · by_cases hp : 0 < schedAmount st <;>
        simp [hw, hp, show ("inflow" : String) ≠ "outflow" by decide,
          show ("inflow" : String) ≠ "net" by decide]
    · simp [hw]

theorem schedKeep_outflow (today : ℤ) (days : ℕ) (st : ScheduledTxn) :
    schedKeep "outflow" today (today + (days : ℤ)) st =
      claimedOutflowKeep today days st := by
  unfold schedKeep claimedOutflowKeep inWindowB
  cases st.dateNext with
  | none => simp
  | some d =>
    by_cases hw : today ≤ d ∧ d < today + (days : ℤ)
    · by_cases hp : schedAmount st < 0 <;>
        simp [hw, hp, show ("outflow" : String) ≠ "inflow" by decide,
          show ("outflow" : String) ≠ "net" by decide]
    · simp [hw]

theorem schedKeep_net (today : ℤ) (days : ℕ) (st : ScheduledTxn) :
    schedKeep "net" today (today + (days : ℤ)) st = inWindowB today days st := by
  unfold schedKeep inWindowB
  cases st.dateNext with
  | none => simp
  | some d =>
    by_cases hw : today ≤ d ∧ d < today + (days : ℤ)
    · simp [hw, show ("net" : String) ≠ "inflow" by decide,
        show ("net" : String) ≠ "outflow" by decide]
    · simp [hw]

theorem calcSched_eq_of_key (sensorKey : String) (days : ℕ) (today : ℤ)
    (sts : List ScheduledTxn) (rk : String)
    (hkey : pyStrReplace sensorKey
        ("scheduled_next_" ++ toString days ++ "_days_") "" = rk) :
    calculateScheduledTransactions sensorKey days today sts =
      if rk = "outflow" then
        pyRound2 |((sts.filter (schedKeep rk today (today + (days : ℤ)))).map
          schedAmount).sum|
      else
        pyRound2 ((sts.filter (schedKeep rk today (today + (days : ℤ)))).map
          schedAmount).sum := by
  unfold calculateScheduledTransactions
  simp only [hkey, schedFold_eq, List.nil_append]

/-- C5: for N in {7, 30}, the `scheduled_next_N_days` sensors aggregate
exactly the scheduled transactions whose parseable next-occurrence date `d`
satisfies `today ≤ d < today + N`: the inflow variant sums the positive
amounts, the outflow variant sums the negative amounts and returns the
absolute value, the net variant sums all amounts in the window, each
converted from milliunits and the total rounded to 2 decimal places. -/
theorem scheduled_window_sensors (days : ℕ) (hdays : days = 7 ∨ days = 30)
    (today : ℤ) (sts : List ScheduledTxn) :
    calculateScheduledTransactions
        ("scheduled_next_" ++ toString days ++ "_days_inflow") days today sts
      = pyRound2 (((sts.filter (claimedInflowKeep today days)).map schedAmount).sum)
  ∧ calculateScheduledTransactions
        ("scheduled_next_" ++ toString days ++ "_days_outflow") days today sts
      = pyRound2 |(((sts.filter (claimedOutflowKeep today days)).map schedAmount).sum)|
  ∧ calculateScheduledTransactions
        ("scheduled_next_" ++ toString days ++ "_days_net") days today sts
      = pyRound2 (((sts.filter (inWindowB today days)).map schedAmount).sum) := by
  rcases hdays with h | h <;> subst h <;> refine ⟨?_, ?_, ?_⟩
  · rw [calcSched_eq_of_key ("scheduled_next_" ++ toString (7 : ℕ) ++ "_days_inflow") 7 today sts "inflow" rfl, if_neg (by decide),
      show schedKeep "inflow" today (today + ((7 : ℕ) : ℤ)) = claimedInflowKeep today 7
        from funext (schedKeep_inflow today 7)]
  · rw [calcSched_eq_of_key ("scheduled_next_" ++ toString (7 : ℕ) ++ "_days_outflow") 7 today sts "outflow" rfl, if_pos rfl,
      show schedKeep "outflow" today (today + ((7 : ℕ) : ℤ)) = claimedOutflowKeep today 7
        from funext (schedKeep_outflow today 7)]
  · rw [calcSched_eq_of_key ("scheduled_next_" ++ toString (7 : ℕ) ++ "_days_net") 7 today sts "net" rfl, if_neg (by decide),
      show schedKeep "net" today (today + ((7 : ℕ) : ℤ)) = inWindowB today 7
        from funext (schedKeep_net today 7)]
  · rw [calcSched_eq_of_key ("scheduled_next_" ++ toString (30 : ℕ) ++ "_days_inflow") 30 today sts "inflow" rfl, if_neg (by decide),
      show schedKeep "inflow" today (today + ((30 : ℕ) : ℤ)) = claimedInflowKeep today 30
        from funext (schedKeep_inflow today 30)]
  · rw [calcSched_eq_of_key ("scheduled_next_" ++ toString (30 : ℕ) ++ "_days_outflow") 30 today sts "outflow" rfl, if_pos rfl,
      show schedKeep "outflow" today (today + ((30 : ℕ) : ℤ)) = claimedOutflowKeep today 30
        from funext (schedKeep_outflow today 30)]
  · rw [calcSched_eq_of_key ("scheduled_next_" ++ toString (30 : ℕ) ++ "_days_net") 30 today sts "net" rfl, if_neg (by decide),
      show schedKeep "net" today (today + ((30 : ℕ) : ℤ)) = inWindowB today 30
        from funext (schedKeep_net today 30)]

/-- C5 witness: the 7-day window sensors at a concrete input (`today = 0`,
one scheduled inflow of 2500 milliunits three days out). -/
theorem scheduled_window_sensors_witness :
    ((7 : ℕ) = 7 ∨ (7 : ℕ) = 30)
  ∧ calculateScheduledTransactions
        ("scheduled_next_" ++ toString (7 : ℕ) ++ "_days_net") 7 0 [⟨some 3, some 2500⟩]
      = pyRound2 ((([⟨some 3, some 2500⟩] : List ScheduledTxn).filter
          (inWindowB 0 7)).map schedAmount).sum :=
  ⟨Or.inl rfl, (scheduled_window_sensors 7 (Or.inl rfl) 0 [⟨some 3, some 2500⟩]).2.2⟩

/-! ## Claims C6 and C8: the poll-and-merge update -/

theorem pdictGet_set_self (d : PDict) (k : String) (v : PVal) :
    pdictGet (pdictSet d k v) k = some v := by
  induction d with
  | nil => simp [pdictSet, pdictGet]
  | cons kv rest ih =>
    obtain ⟨k₂, v₂⟩ := kv
    by_cases h : k₂ = k <;> simp [pdictSet, pdictGet, h, ih]

theorem pdictGet_set_ne (d : PDict) (k k' : String) (v : PVal) (h : k' ≠ k) :
    pdictGet (pdictSet d k v) k' = pdictGet d k' := by
  induction d with
  | nil => simp [pdictSet, pdictGet, Ne.symm h]
  | cons kv rest ih =>
    obtain ⟨k₂, v₂⟩ := kv
    by_cases h1 : k₂ = k
    · subst h1
      by_cases h2 : k₂ = k'
      · exact absurd h2.symm h
      · simp [pdictSet, pdictGet, h2]
    · by_cases h2 : k₂ = k' <;> simp [pdictSet, pdictGet, h1, h2, h, ih]

theorem pdictGet_eq_none (e : PDict) (k : String) (h : k ∉ pdictKeys e) :
    pdictGet e k = none := by
  induction e with
  | nil => rfl
  | cons kv rest ih =>
    obtain ⟨k₂, v₂⟩ := kv
    rw [show pdictKeys ((k₂, v₂) :: rest) = k₂ :: pdictKeys rest from rfl,
      List.mem_cons] at h
    push_neg at h
    simp [pdictGet, Ne.symm h.1, ih h.2]

theorem pdictGet_update (d e : PDict) (he : (pdictKeys e).Nodup) (k : String) :
    pdictGet (pdictUpdate d e) k =
      (pdictGet e k).elim (pdictGet d k) some := by
  induction e generalizing d with
  | nil => simp [pdictUpdate, pdictGet]
  | cons kv rest ih =>
    obtain ⟨k₂, v₂⟩ := kv
    simp only [pdictKeys, List.map_cons, List.nodup_cons] at he
    have hstep : pdictUpdate d ((k₂, v₂) :: rest) =
        pdictUpdate (pdictSet d k₂ v₂) rest := rfl
    rw [hstep, ih (pdictSet d k₂ v₂) he.2]
    by_cases h2 : k₂ = k
    · subst h2
      have hnone : pdictGet rest k₂ = none :=
        pdictGet_eq_none rest k₂ (by simpa [pdictKeys] using he.1)
      simp [pdictGet, hnone, pdictGet_set_self]
    · simp [pdictGet, h2, pdictGet_set_ne d k₂ k v₂ (fun hk => h2 hk.symm)]

theorem pdictGet_update_nil (m : PDict) (hm : (pdictKeys m).Nodup) (k : String) :
    pdictGet (pdictUpdate [] m) k = pdictGet m k := by
  rw [pdictGet_update [] m hm k]
  cases pdictGet m k <;> rfl

/-- C6: when both fetches return dicts, the update succeeds with a merged
dict: the config payload is stored under `config`, every key of the main
payload is present, and every non-`config` key holds the main payload's
value. -/
theorem update_merges (prev : Option PDict) (m c : PDict)
    (hm : (pdictKeys m).Nodup) :
    asyncUpdateData prev (.dict m) (.dict c) =
      .ok (pdictSet (pdictUpdate [] m) "config" (PVal.dict c))
  ∧ pdictGet (pdictSet (pdictUpdate [] m) "config" (PVal.dict c)) "config"
      = some (PVal.dict c)
  ∧ (∀ k v, pdictGet m k = some v →
      ∃ v₂, pdictGet (pdictSet (pdictUpdate [] m) "config" (PVal.dict c)) k = some v₂)
  ∧ (∀ k, k ≠ "config" →
      pdictGet (pdictSet (pdictUpdate [] m) "config" (PVal.dict c)) k
        = pdictGet m k) := by
  have hne : ∀ k, k ≠ "config" →
      pdictGet (pdictSet (pdictUpdate [] m) "config" (PVal.dict c)) k
        = pdictGet m k := fun k hk =>
    (pdictGet_set_ne (pdictUpdate [] m) "config" k (PVal.dict c) hk).trans
      (pdictGet_update_nil m hm k)
  refine ⟨rfl, pdictGet_set_self _ _ _, ?_, hne⟩
  intro k v hkv
  by_cases hk : k = "config"
  · subst hk
    exact ⟨PVal.dict c, pdictGet_set_self _ _ _⟩
  · exact ⟨v, (hne k hk).trans hkv⟩

/-- A concrete main payload for the C6 / C8 witnesses. -/
def mainFixture : PDict := [("accounts", .scalar 1), ("assets", .scalar 2)]

def configFixture : PDict := [("currency", .scalar 3)]

/-- A previous coordinator payload holding a config dict. -/
def prevFixture : PDict := [("config", .dict [("a", .scalar 4)])]

/-- C6 witness: the merge at concrete payloads. -/
theorem update_merges_witness :
    (pdictKeys mainFixture).Nodup
  ∧ asyncUpdateData none (.dict mainFixture) (.dict configFixture) =
      .ok (pdictSet (pdictUpdate [] mainFixture) "config" (PVal.dict configFixture))
  ∧ pdictGet (pdictSet (pdictUpdate [] mainFixture) "config"
      (PVal.dict configFixture)) "config" = some (PVal.dict configFixture) :=
  ⟨by decide,
   (update_merges none mainFixture configFixture (by decide)).1,
   (update_merges none mainFixture configFixture (by decide)).2.1⟩

/-- C8: a failed or non-dict config fetch leaves the update successful and
falls back to the previous config (or `{}`), while a failed or non-dict
main fetch fails the whole update with `UpdateFailed`. -/
theorem update_failure_handling (prev : Option PDict) (m : PDict)
    (cf : FetchResult) (hcf : cf = .exc ∨ cf = .nonDict) :
    asyncUpdateData prev (.dict m) cf =
      .ok (pdictSet (pdictUpdate [] m) "config" (lastKnownConfig prev))
  ∧ (∀ cfg, asyncUpdateData prev .exc cfg = .error .mainFetchRaised)
  ∧ (∀ cfg, asyncUpdateData prev .nonDict cfg = .error .invalidMainFormat) := by
  refine ⟨?_, fun _ => rfl, fun _ => rfl⟩
  rcases hcf with h | h <;> subst h <;> rfl

/-- C8 witness: a raised config fetch at concrete payloads reuses the
previous config under the `config` key. -/
theorem update_failure_handling_witness :
    (FetchResult.exc = FetchResult.exc ∨ FetchResult.exc = FetchResult.nonDict)
  ∧ asyncUpdateData (some prevFixture) (.dict mainFixture) .exc =
      .ok (pdictSet (pdictUpdate [] mainFixture) "config"
        (lastKnownConfig (some prevFixture))) :=
  ⟨Or.inl rfl,
   (update_failure_handling (some prevFixture) mainFixture .exc (Or.inl rfl)).1⟩

/-! ## Claims C3 and C9: stock-asset reconciliation -/

theorem pyRound_zero : pyRound 0 = 0 := by norm_num [pyRound]

theorem reconcileAsset_eq (hs : HassStates) (api : AddonApi)
    (item : ReconcileItem) (p : ℚ) (hp : hs item.entityId = some (some p)) :
    reconcileAsset hs api item =
      (if adjustmentFor item p = 0 then ([], true)
       else ([⟨item.ynabAccountId, adjustmentFor item p⟩],
             api ⟨item.ynabAccountId, adjustmentFor item p⟩)) := by
  unfold reconcileAsset adjustmentFor
  rw [hp]
  by_cases hz : pyRound (p * item.shares * 1000) - item.ynabBalanceMilliunits = 0 <;>
    simp [hz]

theorem reconcileFold_eq (hs : HassStates) (api : AddonApi)
    (l : List ReconcileItem) (acc : List AdjustmentRequest × ℕ × ℕ) :
    l.foldl (reconcileFoldStep hs api) acc =
      (acc.1 ++ (l.map (fun it => (reconcileAsset hs api it).1)).flatten,
       acc.2.1 + (l.filter (fun it => (reconcileAsset hs api it).2)).length,
       acc.2.2 + (l.filter (fun it => !(reconcileAsset hs api it).2)).length) := by
  induction l generalizing acc with
  | nil => simp
  | cons it rest ih =>
    rw [List.foldl_cons, ih]
    by_cases h : (reconcileAsset hs api it).2 = true <;>
      simp [reconcileFoldStep, h, List.filter_cons, List.append_assoc] <;> omega

theorem reconcileService_posted (data : AllData) (hs : HassStates)
    (api : AddonApi) :
    (reconcileService data hs api).1 =
      ((assetsToReconcile data).map
        (fun it => (reconcileAsset hs api it).1)).flatten := by
  unfold reconcileService
  rw [reconcileFold_eq]
  simp

/-- C3 (amended): for every eligible stock asset, the adjustment is
`int(round(price * shares * 1000))` minus the asset's ledger balance in
milliunits, the loop posts exactly one `create_adjustment_transaction`
request carrying exactly that amount when the adjustment is nonzero, and
posts nothing for the asset when the adjustment is zero. -/
theorem reconcile_adjustment (data : AllData) (hs : HassStates) (api : AddonApi)
    (item : ReconcileItem) (p : ℚ)
    (hmem : item ∈ assetsToReconcile data)
    (hp : hs item.entityId = some (some p)) :
    adjustmentFor item p =
      pyRound (p * item.shares * 1000) - item.ynabBalanceMilliunits
  ∧ (reconcileAsset hs api item).1 =
      (if adjustmentFor item p = 0 then []
       else [⟨item.ynabAccountId, adjustmentFor item p⟩])
  ∧ (adjustmentFor item p ≠ 0 →
      (⟨item.ynabAccountId, adjustmentFor item p⟩ : AdjustmentRequest)
        ∈ (reconcileService data hs api).1) := by
  have hstep : (reconcileAsset hs api item).1 =
      (if adjustmentFor item p = 0 then []
       else [⟨item.ynabAccountId, adjustmentFor item p⟩]) := by
    rw [reconcileAsset_eq hs api item p hp]
    split <;> rfl
  refine ⟨rfl, hstep, ?_⟩
  intro hnz
  rw [reconcileService_posted]
  refine List.mem_flatten.mpr ⟨(reconcileAsset hs api item).1,
    List.mem_map_of_mem _ hmem, ?_⟩
  rw [hstep, if_neg hnz]
  exact List.mem_singleton.mpr rfl

/-- C3 witness: a concrete eligible asset (price 5, one share, ledger
balance 4000 milliunits) gets a posted adjustment request. -/
theorem reconcile_adjustment_witness :
    wItem ∈ assetsToReconcile wData
  ∧ cexHass wItem.entityId = some (some 5)
  ∧ (adjustmentFor wItem 5 ≠ 0 →
      (⟨wItem.ynabAccountId, adjustmentFor wItem 5⟩ : AdjustmentRequest)
        ∈ (reconcileService wData cexHass cexApi).1) :=
  ⟨by decide, rfl,
   (reconcile_adjustment wData cexHass cexApi wItem 5 (by decide) rfl).2.2⟩

/-- C3 counterexample: an eligible stock asset whose calculated value
(5 * 1 * 1000 = 5000 milliunits) already equals its ledger balance gets NO
posted request — the service's posted-request list is empty — so "posts a
create_adjustment_transaction request" for every eligible asset is false
as stated. -/
theorem reconcile_adjustment_counterexample :
    cexItem ∈ assetsToReconcile cexData
  ∧ cexHass cexItem.entityId = some (some 5)
  ∧ adjustmentFor cexItem 5 = 0
  ∧ (reconcileService cexData cexHass cexApi).1 = [] := by
  have hz : adjustmentFor cexItem 5 = 0 := by
    show pyRound ((5 : ℚ) * 1 * 1000) - 5000 = 0
    norm_num [pyRound]
  have hasset : reconcileAsset cexHass cexApi cexItem = ([], true) := by
    rw [reconcileAsset_eq cexHass cexApi cexItem 5 rfl, if_pos hz]
  have hlist : assetsToReconcile cexData = [cexItem] := by decide
  refine ⟨by decide, rfl, hz, ?_⟩
  rw [reconcileService_posted, hlist]
  simp [hasset]

/-- C9: a zero adjustment posts nothing and counts the asset as a
successful update, and a fully reconciled portfolio (every eligible asset
at zero adjustment) produces no outgoing transaction requests and no
failures. -/
theorem reconcile_zero_adjustment (hs : HassStates) (api : AddonApi)
    (item : ReconcileItem) (p : ℚ)
    (hp : hs item.entityId = some (some p))
    (hz : adjustmentFor item p = 0) :
    reconcileAsset hs api item = ([], true)
  ∧ ∀ (data : AllData),
      (∀ it ∈ assetsToReconcile data,
        ∃ q, hs it.entityId = some (some q) ∧ adjustmentFor it q = 0) →
      (reconcileService data hs api).1 = []
      ∧ (reconcileService data hs api).2.1 = (assetsToReconcile data).length
      ∧ (reconcileService data hs api).2.2 = 0 := by
  have hstep : reconcileAsset hs api item = ([], true) := by
    rw [reconcileAsset_eq hs api item p hp, if_pos hz]
  refine ⟨hstep, ?_⟩
  intro data hall
  have hall2 : ∀ it ∈ assetsToReconcile data,
      reconcileAsset hs api it = ([], true) := by
    intro it hmem
    obtain ⟨q, hq, hzq⟩ := hall it hmem
    rw [reconcileAsset_eq hs api it q hq, if_pos hzq]
  unfold reconcileService
  rw [reconcileFold_eq]
  refine ⟨?_, ?_, ?_⟩
  · simp only [List.nil_append]
    refine List.flatten_eq_nil_iff.mpr ?_
    intro l hl
    obtain ⟨it, hmem, hit⟩ := List.mem_map.mp hl
    rw [← hit, hall2 it hmem]
  · simp only [Nat.zero_add]
    congr 1
    refine List.filter_eq_self.mpr ?_
    intro it hmem
    simp [hall2 it hmem]
  · simp only [Nat.zero_add]
    refine List.length_eq_zero.mpr ?_
    refine List.filter_eq_nil_iff.mpr ?_
    intro it hmem
    simp [hall2 it hmem]

/-- A zero-balance, zero-price eligible item has adjustment zero. -/
theorem cz_adjustment_zero : adjustmentFor czItem 0 = 0 := by
  show pyRound ((0 : ℚ) * 1 * 1000) - 0 = 0
  simp [pyRound_zero]

/-- C9 witness: at price 0 against a zero ledger balance, the loop posts
nothing and counts the asset as a success. -/
theorem reconcile_zero_adjustment_witness :
    czHass czItem.entityId = some (some 0)
  ∧ adjustmentFor czItem 0 = 0
  ∧ reconcileAsset czHass cexApi czItem = ([], true) :=
  ⟨rfl, cz_adjustment_zero,
   (reconcile_zero_adjustment czHass cexApi czItem 0 rfl cz_adjustment_zero).1⟩

end FinanceAssistant
